import Mathlib

/-!
Verification of the cockpit-sensors sensor aggregation engine and its helpers.

The TypeScript sources are shallowly embedded: finite JavaScript numbers are
modelled as rationals, absent (undefined) values as Option.none, thrown
ProviderErrors as Except.error, and stateful hooks as explicit state-passing
step functions.  Library built-ins that are not part of the repository
(Date.toISOString, JS number printing, Intl.Collator) are modelled as
parameters or by a fixed total order, as noted at each definition.
-/

namespace CockpitSensors

/-! Rolling history buffer (src/src/lib/history.ts). -/

/-- A single timestamped sample in the history buffer: field t is the Unix
timestamp in milliseconds, field v the recorded sensor value. -/
structure Sample where
  t : Int
  v : ℚ
  deriving DecidableEq, Repr

/-- Default cap of the rolling history buffer. -/
def MAX_HISTORY_SAMPLES : Nat := 300

/-- Embedding of pushSample: append the new sample, then splice away the
oldest entries while the buffer exceeds the limit.  Date.now() is passed in
explicitly as the timestamp t. -/
def pushSample (buffer : List Sample) (t : Int) (v : ℚ) (limit : Nat) : List Sample :=
  let b := buffer ++ [{ t := t, v := v }]
  if limit < b.length then b.drop (b.length - limit) else b

/-- Repeatedly push timestamped values into an initially empty buffer. -/
def pushMany (pushes : List (Int × ℚ)) (limit : Nat) : List Sample :=
  pushes.foldl (fun buf p => pushSample buf p.1 p.2 limit) []

/-! Statistics over the buffer (src/src/lib/history.ts, calcStats). -/

/-- JavaScript number values reachable inside calcStats: NaN, the two
infinities used as fold seeds, and finite numbers. -/
inductive JsNum where
  | nan
  | posInf
  | negInf
  | num (q : ℚ)
  deriving DecidableEq, Repr

/-- JavaScript strict less-than on the modelled numbers: NaN compares false
with everything. -/
def jsLt : JsNum → JsNum → Bool
  | _, .nan => false
  | .nan, _ => false
  | .num a, .num b => decide (a < b)
  | .negInf, .negInf => false
  | .negInf, _ => true
  | _, .negInf => false
  | .posInf, _ => false
  | _, .posInf => true

/-- Computed statistics over a collection of samples. -/
structure Stats where
  min : JsNum
  max : JsNum
  avg : JsNum
  n : Nat
  deriving DecidableEq, Repr

/-- The for-loop of calcStats: update the running minimum, maximum and sum
for each sample value. -/
def statsLoop : List ℚ → JsNum → JsNum → ℚ → JsNum × JsNum × ℚ
  | [], mn, mx, sum => (mn, mx, sum)
  | v :: rest, mn, mx, sum =>
      statsLoop rest
        (if jsLt (.num v) mn then .num v else mn)
        (if jsLt mx (.num v) then .num v else mx)
        (sum + v)

/-- Embedding of calcStats: NaN statistics for an empty buffer, otherwise a
fold starting from positive and negative infinity and a zero sum. -/
def calcStats (buffer : List Sample) : Stats :=
  if buffer.length = 0 then
    { min := .nan, max := .nan, avg := .nan, n := 0 }
  else
    match statsLoop (buffer.map (fun s => s.v)) .posInf .negInf 0 with
    | (mn, mx, sum) =>
        { min := mn, max := mx, avg := .num (sum / (buffer.length : ℚ)), n := buffer.length }

example : (pushMany [(0, 0), (1, 1), (2, 2), (3, 3), (4, 4)] 3).map (fun s => s.v) = [2, 3, 4] := by
  decide

theorem pushMany_append (pushes : List (Int × ℚ)) (p : Int × ℚ) (limit : Nat) :
    pushMany (pushes ++ [p]) limit = pushSample (pushMany pushes limit) p.1 p.2 limit := by
  simp [pushMany, List.foldl_append]

theorem pushMany_eq_drop (limit : Nat) (h : 1 ≤ limit) (pushes : List (Int × ℚ)) :
    pushMany pushes limit
      = (pushes.map (fun p => ({ t := p.1, v := p.2 } : Sample))).drop (pushes.length - limit) := by
  induction pushes using List.reverseRecOn with
  | nil => simp [pushMany]
  | append_singleton ps p ih =>
      rw [pushMany_append, ih, List.map_append]
      simp only [List.map_cons, List.map_nil]
      have hMlen : (ps.map (fun p => ({ t := p.1, v := p.2 } : Sample))).length = ps.length := by
        simp
      set M : List Sample := ps.map (fun p => ({ t := p.1, v := p.2 } : Sample)) with hM
      by_cases hc : ps.length < limit
      · have h0 : ps.length - limit = 0 := by omega
        have h1 : (ps ++ [p]).length - limit = 0 := by simp; omega
        rw [h0, h1, List.drop_zero, List.drop_zero]
        have hb : ¬ limit < (M ++ [({ t := p.1, v := p.2 } : Sample)]).length := by
          simp [hMlen]; omega
        simp only [pushSample, List.map_cons, List.map_nil]
        rw [if_neg hb]
      · have hlim : limit ≤ ps.length := by omega
        have hbuflen : (M.drop (ps.length - limit)).length = limit := by
          simp [hMlen]; omega
        have hb : limit <
            (M.drop (ps.length - limit) ++ [({ t := p.1, v := p.2 } : Sample)]).length := by
          simp [hbuflen]
        simp only [pushSample]
        rw [if_pos hb]
        have hlen1 : (M.drop (ps.length - limit) ++ [({ t := p.1, v := p.2 } : Sample)]).length
            - limit = 1 := by
          simp [hbuflen]
        rw [hlen1]
        have hd1 : (M.drop (ps.length - limit) ++ [({ t := p.1, v := p.2 } : Sample)]).drop 1
            = (M.drop (ps.length - limit)).drop 1 ++ [({ t := p.1, v := p.2 } : Sample)] := by
          exact List.drop_append_of_le_length (by omega)
        rw [hd1, List.drop_drop]
        have hd2 : (M ++ [({ t := p.1, v := p.2 } : Sample)]).drop ((ps ++ [p]).length - limit)
            = M.drop ((ps ++ [p]).length - limit) ++ [({ t := p.1, v := p.2 } : Sample)] := by
          refine List.drop_append_of_le_length ?_
          simp [hMlen]; omega
        rw [hd2]
        have harith : ps.length - limit + 1 = (ps ++ [p]).length - limit := by
          simp; omega
        rw [harith]

/-- C9: for every sequence of pushes with a fixed limit of at least 1, starting
from an empty buffer, the buffer holds exactly the most recent min(n, limit)
pushed values in insertion order (the oldest entries are evicted first); in
particular pushing 0,1,2,3,4 with limit 3 leaves the values 2,3,4. -/
theorem pushSample_rolling_window (pushes : List (Int × ℚ)) (limit : Nat) (h : 1 ≤ limit) :
    pushMany pushes limit
      = (pushes.map (fun p => ({ t := p.1, v := p.2 } : Sample))).drop (pushes.length - limit)
    ∧ (pushMany pushes limit).length = min pushes.length limit
    ∧ (pushMany [(0, 0), (1, 1), (2, 2), (3, 3), (4, 4)] 3).map (fun s => s.v) = [2, 3, 4] := by
  refine ⟨pushMany_eq_drop limit h pushes, ?_, by decide⟩
  rw [pushMany_eq_drop limit h pushes]
  simp
  omega

/-- Witness for pushSample_rolling_window at the concrete five-push run with
limit 3. -/
theorem pushSample_rolling_window_witness :
    1 ≤ 3
    ∧ (pushMany [(0, 0), (1, 1), (2, 2), (3, 3), (4, 4)] 3
        = (([(0, 0), (1, 1), (2, 2), (3, 3), (4, 4)] : List (Int × ℚ)).map
            (fun p => ({ t := p.1, v := p.2 } : Sample))).drop
            (([(0, 0), (1, 1), (2, 2), (3, 3), (4, 4)] : List (Int × ℚ)).length - 3)
      ∧ (pushMany [(0, 0), (1, 1), (2, 2), (3, 3), (4, 4)] 3).length
          = min ([(0, 0), (1, 1), (2, 2), (3, 3), (4, 4)] : List (Int × ℚ)).length 3
      ∧ (pushMany [(0, 0), (1, 1), (2, 2), (3, 3), (4, 4)] 3).map (fun s => s.v) = [2, 3, 4]) :=
  ⟨by decide, pushSample_rolling_window [(0, 0), (1, 1), (2, 2), (3, 3), (4, 4)] 3 (by decide)⟩

example : calcStats [{ t := 1000, v := 45 }, { t := 2000, v := 50 }, { t := 3000, v := (95 : ℚ)/2 }]
    = { min := .num 45, max := .num 50, avg := .num ((95 : ℚ)/2), n := 3 } := by
  norm_num [calcStats, statsLoop, jsLt]

theorem statsLoop_num (vs : List ℚ) : ∀ a b s : ℚ,
    statsLoop vs (.num a) (.num b) s
      = (.num (vs.foldl min a), .num (vs.foldl max b), s + vs.sum) := by
  induction vs with
  | nil => intro a b s; simp [statsLoop]
  | cons v rest ih =>
      intro a b s
      have hmn : (if jsLt (JsNum.num v) (JsNum.num a) then JsNum.num v else JsNum.num a)
          = JsNum.num (min a v) := by
        by_cases hv : v < a
        · simp [jsLt, hv, min_eq_right hv.le]
        · simp [jsLt, hv, min_eq_left (not_lt.mp hv)]
      have hmx : (if jsLt (JsNum.num b) (JsNum.num v) then JsNum.num v else JsNum.num b)
          = JsNum.num (max b v) := by
        by_cases hv : b < v
        · simp [jsLt, hv, max_eq_right hv.le]
        · simp [jsLt, hv, max_eq_left (not_lt.mp hv)]
      simp only [statsLoop, hmn, hmx, ih, List.foldl_cons, List.sum_cons]
      refine Prod.ext rfl (Prod.ext rfl ?_)
      simp only
      ring

theorem foldl_min_le (vs : List ℚ) : ∀ a : ℚ,
    vs.foldl min a ≤ a ∧ ∀ x ∈ vs, vs.foldl min a ≤ x := by
  induction vs with
  | nil => intro a; exact ⟨le_refl a, by simp⟩
  | cons v rest ih =>
      intro a
      obtain ⟨h1, h2⟩ := ih (min a v)
      rw [List.foldl_cons]
      refine ⟨le_trans h1 (min_le_left a v), ?_⟩
      intro x hx
      rcases List.mem_cons.mp hx with hx | hx
      · subst hx; exact le_trans h1 (min_le_right a x)
      · exact h2 x hx

theorem foldl_min_mem (vs : List ℚ) : ∀ a : ℚ,
    vs.foldl min a = a ∨ vs.foldl min a ∈ vs := by
  induction vs with
  | nil => intro a; exact Or.inl rfl
  | cons v rest ih =>
      intro a
      rcases ih (min a v) with h | h
      · rcases min_choice a v with hm | hm
        · exact Or.inl (by rw [List.foldl_cons, h, hm])
        · exact Or.inr (by rw [List.foldl_cons, h, hm]; exact List.mem_cons_self v rest)
      · exact Or.inr (List.mem_cons_of_mem v h)

theorem foldl_max_ge (vs : List ℚ) : ∀ a : ℚ,
    a ≤ vs.foldl max a ∧ ∀ x ∈ vs, x ≤ vs.foldl max a := by
  induction vs with
  | nil => intro a; exact ⟨le_refl a, by simp⟩
  | cons v rest ih =>
      intro a
      obtain ⟨h1, h2⟩ := ih (max a v)
      rw [List.foldl_cons]
      refine ⟨le_trans (le_max_left a v) h1, ?_⟩
      intro x hx
      rcases List.mem_cons.mp hx with hx | hx
      · subst hx; exact le_trans (le_max_right a x) h1
      · exact h2 x hx

theorem foldl_max_mem (vs : List ℚ) : ∀ a : ℚ,
    vs.foldl max a = a ∨ vs.foldl max a ∈ vs := by
  induction vs with
  | nil => intro a; exact Or.inl rfl
  | cons v rest ih =>
      intro a
      rcases ih (max a v) with h | h
      · rcases max_choice a v with hm | hm
        · exact Or.inl (by rw [List.foldl_cons, h, hm])
        · exact Or.inr (by rw [List.foldl_cons, h, hm]; exact List.mem_cons_self v rest)
      · exact Or.inr (List.mem_cons_of_mem v h)

theorem card_mul_le_sum (vs : List ℚ) (m : ℚ) (h : ∀ x ∈ vs, m ≤ x) :
    m * vs.length ≤ vs.sum := by
  induction vs with
  | nil => simp
  | cons v rest ih =>
      have hv := h v (List.mem_cons_self v rest)
      have hr := ih (fun x hx => h x (List.mem_cons_of_mem v hx))
      simp only [List.sum_cons, List.length_cons]
      push_cast
      linarith

theorem sum_le_card_mul (vs : List ℚ) (m : ℚ) (h : ∀ x ∈ vs, x ≤ m) :
    vs.sum ≤ m * vs.length := by
  induction vs with
  | nil => simp
  | cons v rest ih =>
      have hv := h v (List.mem_cons_self v rest)
      have hr := ih (fun x hx => h x (List.mem_cons_of_mem v hx))
      simp only [List.sum_cons, List.length_cons]
      push_cast
      linarith

theorem min_le_avg (vs : List ℚ) (hvs : vs ≠ []) (m : ℚ) (h : ∀ x ∈ vs, m ≤ x) :
    m ≤ vs.sum / (vs.length : ℚ) := by
  have hlen : 0 < vs.length := List.length_pos.mpr hvs
  rw [le_div_iff₀ (by exact_mod_cast hlen : (0 : ℚ) < (vs.length : ℚ))]
  exact card_mul_le_sum vs m h

theorem avg_le_max (vs : List ℚ) (hvs : vs ≠ []) (m : ℚ) (h : ∀ x ∈ vs, x ≤ m) :
    vs.sum / (vs.length : ℚ) ≤ m := by
  have hlen : 0 < vs.length := List.length_pos.mpr hvs
  rw [div_le_iff₀ (by exact_mod_cast hlen : (0 : ℚ) < (vs.length : ℚ))]
  exact sum_le_card_mul vs m h

theorem calcStats_cons (v0 : Sample) (bs : List Sample) :
    calcStats (v0 :: bs)
      = { min := .num ((bs.map (fun s => s.v)).foldl min v0.v),
          max := .num ((bs.map (fun s => s.v)).foldl max v0.v),
          avg := .num (((v0 :: bs).map (fun s => s.v)).sum / ((v0 :: bs).length : ℚ)),
          n := (v0 :: bs).length } := by
  have hstep : statsLoop ((v0 :: bs).map (fun s => s.v)) .posInf .negInf 0
      = (.num ((bs.map (fun s => s.v)).foldl min v0.v),
         .num ((bs.map (fun s => s.v)).foldl max v0.v),
         ((v0 :: bs).map (fun s => s.v)).sum) := by
    simp only [List.map_cons, statsLoop, jsLt, if_true, List.sum_cons]
    rw [statsLoop_num]
    simp only [Prod.mk.injEq, true_and]
    ring
  simp only [calcStats, List.length_cons, Nat.succ_ne_zero, if_false, hstep]

set_option maxHeartbeats 1000000 in
/-- C10: calcStats of an empty buffer is all-NaN with n = 0; for a non-empty
buffer, n is the length, min and max are the least and greatest sample values,
and avg is the sum of the values divided by the length, so min <= avg <= max. -/
theorem calcStats_spec :
    calcStats [] = { min := .nan, max := .nan, avg := .nan, n := 0 }
    ∧ ∀ buffer : List Sample, buffer ≠ [] →
        (calcStats buffer).n = buffer.length
        ∧ (calcStats buffer).avg
            = .num ((buffer.map (fun s => s.v)).sum / (buffer.length : ℚ))
        ∧ ∃ m M : ℚ,
            (calcStats buffer).min = .num m
            ∧ (calcStats buffer).max = .num M
            ∧ m ∈ buffer.map (fun s => s.v)
            ∧ M ∈ buffer.map (fun s => s.v)
            ∧ (∀ x ∈ buffer.map (fun s => s.v), m ≤ x ∧ x ≤ M)
            ∧ m ≤ (buffer.map (fun s => s.v)).sum / (buffer.length : ℚ)
            ∧ (buffer.map (fun s => s.v)).sum / (buffer.length : ℚ) ≤ M := by
  refine ⟨rfl, ?_⟩
  intro buffer hb
  match buffer, hb with
  | v0 :: bs, _ =>
    rw [calcStats_cons]
    refine ⟨rfl, rfl, (bs.map (fun s => s.v)).foldl min v0.v,
      (bs.map (fun s => s.v)).foldl max v0.v, rfl, rfl, ?_, ?_, ?_, ?_, ?_⟩
    · rcases foldl_min_mem (bs.map (fun s => s.v)) v0.v with h | h
      · rw [h]; simp
      · exact List.mem_cons_of_mem _ h
    · rcases foldl_max_mem (bs.map (fun s => s.v)) v0.v with h | h
      · rw [h]; simp
      · exact List.mem_cons_of_mem _ h
    · intro x hx
      rcases List.mem_cons.mp hx with hx | hx
      · exact ⟨hx ▸ (foldl_min_le (bs.map (fun s => s.v)) v0.v).1,
          hx ▸ (foldl_max_ge (bs.map (fun s => s.v)) v0.v).1⟩
      · exact ⟨(foldl_min_le (bs.map (fun s => s.v)) v0.v).2 x hx,
          (foldl_max_ge (bs.map (fun s => s.v)) v0.v).2 x hx⟩
    · have hbound : ∀ x ∈ (v0 :: bs).map (fun s => s.v),
          (bs.map (fun s => s.v)).foldl min v0.v ≤ x := by
        intro x hx
        rcases List.mem_cons.mp hx with hx | hx
        · subst hx; exact (foldl_min_le (bs.map (fun s => s.v)) v0.v).1
        · exact (foldl_min_le (bs.map (fun s => s.v)) v0.v).2 x hx
      have h := min_le_avg ((v0 :: bs).map (fun s => s.v)) (by simp) _ hbound
      rw [List.length_map] at h
      exact h
    · have hbound : ∀ x ∈ (v0 :: bs).map (fun s => s.v),
          x ≤ (bs.map (fun s => s.v)).foldl max v0.v := by
        intro x hx
        rcases List.mem_cons.mp hx with hx | hx
        · subst hx; exact (foldl_max_ge (bs.map (fun s => s.v)) v0.v).1
        · exact (foldl_max_ge (bs.map (fun s => s.v)) v0.v).2 x hx
      have h := avg_le_max ((v0 :: bs).map (fun s => s.v)) (by simp) _ hbound
      rw [List.length_map] at h
      exact h

/-- Concrete buffer used by the witness of calcStats_spec. -/
def statsWitnessBuffer : List Sample :=
  [{ t := 1, v := 2 }, { t := 2, v := 4 }]

/-- Witness for calcStats_spec at the concrete two-sample buffer. -/
theorem calcStats_spec_witness :
    statsWitnessBuffer ≠ []
    ∧ ((calcStats statsWitnessBuffer).n = statsWitnessBuffer.length
      ∧ (calcStats statsWitnessBuffer).avg
          = .num ((statsWitnessBuffer.map (fun s => s.v)).sum
              / (statsWitnessBuffer.length : ℚ))
      ∧ ∃ m M : ℚ,
          (calcStats statsWitnessBuffer).min = .num m
          ∧ (calcStats statsWitnessBuffer).max = .num M
          ∧ m ∈ statsWitnessBuffer.map (fun s => s.v)
          ∧ M ∈ statsWitnessBuffer.map (fun s => s.v)
          ∧ (∀ x ∈ statsWitnessBuffer.map (fun s => s.v), m ≤ x ∧ x ≤ M)
          ∧ m ≤ (statsWitnessBuffer.map (fun s => s.v)).sum
              / (statsWitnessBuffer.length : ℚ)
          ∧ (statsWitnessBuffer.map (fun s => s.v)).sum
              / (statsWitnessBuffer.length : ℚ) ≤ M) :=
  ⟨by decide, calcStats_spec.2 statsWitnessBuffer (by decide)⟩

/-! NVMe temperature normalisation (src/unnamed/part_004, convertTemperature). -/

/-- Embedding of the NVMe provider's convertTemperature: values above 200 are
interpreted as Kelvin and shifted down by 273, values at or below 200 pass
through.  The argument none models a missing, non-numeric or non-finite raw
value, for which the source returns undefined. -/
def convertTemperature (raw : Option ℚ) : Option ℚ :=
  match raw with
  | none => none
  | some q => if 200 < q then some (q - 273) else some q

/-- C8: raw values strictly above 200 map to raw - 273, raw values at or below
200 are unchanged; at the boundary 200 maps to 200 and 201 maps to -72, and a
missing or non-finite raw value yields no temperature. -/
theorem convertTemperature_spec (q : ℚ) :
    (200 < q → convertTemperature (some q) = some (q - 273))
    ∧ (q ≤ 200 → convertTemperature (some q) = some q)
    ∧ convertTemperature (some 200) = some 200
    ∧ convertTemperature (some 201) = some (-72)
    ∧ convertTemperature none = none := by
  refine ⟨?_, ?_, ?_, ?_, rfl⟩
  · intro h
    simp [convertTemperature, h]
  · intro h
    simp [convertTemperature, not_lt.mpr h]
  · norm_num [convertTemperature]
  · norm_num [convertTemperature]

/-- Witness for convertTemperature_spec at the Kelvin-range input 250. -/
theorem convertTemperature_spec_witness :
    (200 : ℚ) < 250 ∧ convertTemperature (some 250) = some (250 - 273) :=
  ⟨by norm_num, (convertTemperature_spec 250).1 (by norm_num)⟩

/-! Threshold classification (src/unnamed/part_000, getThresholdState). -/

/-- Threshold classification outcome. -/
inductive ThresholdState where
  | normal
  | warning
  | danger
  deriving DecidableEq, Repr

/-- Unit string attached to Celsius readings (src/unnamed/part_002). -/
def CELSIUS_UNIT : String := "°C"

/-- Width of the warning band below the maximum, in degrees Celsius. -/
def WARNING_MARGIN_CELSIUS : ℚ := 5

/-- A sensor reading as consumed by the UI: label, current input and optional
thresholds and unit.  Optional JavaScript numbers are modelled as Option. -/
structure Reading where
  label : String
  input : Option ℚ
  min : Option ℚ
  max : Option ℚ
  critical : Option ℚ
  unit : Option String
  deriving DecidableEq, Repr

/-- Embedding of getThresholdState: non-numeric input is normal; a numeric
input at or above critical or at or above max is danger; a Celsius reading
within the warning margin below max is warning; anything else is normal. -/
def getThresholdState (reading : Reading) : ThresholdState :=
  match reading.input with
  | none => .normal
  | some input =>
      if (match reading.critical with
          | some critical => decide (critical ≤ input)
          | none => false) then .danger
      else if (match reading.max with
          | some high => decide (high ≤ input)
          | none => false) then .danger
      else if (match reading.max, reading.unit with
          | some high, some unit =>
              decide (unit = CELSIUS_UNIT) && decide (high - WARNING_MARGIN_CELSIUS ≤ input)
          | _, _ => false) then .warning
      else .normal

/-- Reading used for the concrete examples of C4: Celsius unit, max 80 and no
critical threshold. -/
def thresholdExample (x : ℚ) : Reading :=
  { label := "temp", input := some x, min := none, max := some 80, critical := none,
    unit := some CELSIUS_UNIT }

/-- C4: for a numeric input, an input at or above critical or at or above max
classifies as danger; a Celsius reading within 5 degrees below max (and below
every danger threshold) classifies as warning; an input further below max (and
below critical) classifies as normal; with max 80 and a Celsius unit, input 82
is danger, 76 is warning and 40 is normal. -/
theorem getThresholdState_spec (r : Reading) (x : ℚ) (h : r.input = some x) :
    ((∀ c, r.critical = some c → c ≤ x → getThresholdState r = .danger)
      ∧ (∀ m, r.max = some m → m ≤ x → getThresholdState r = .danger)
      ∧ (r.unit = some CELSIUS_UNIT → ∀ m, r.max = some m →
          m - WARNING_MARGIN_CELSIUS ≤ x → x < m →
          (∀ c, r.critical = some c → x < c) → getThresholdState r = .warning)
      ∧ (∀ m, r.max = some m → x < m - WARNING_MARGIN_CELSIUS →
          (∀ c, r.critical = some c → x < c) → getThresholdState r = .normal))
    ∧ (getThresholdState (thresholdExample 82) = .danger
      ∧ getThresholdState (thresholdExample 76) = .warning
      ∧ getThresholdState (thresholdExample 40) = .normal) := by
  refine ⟨⟨?_, ?_, ?_, ?_⟩, ?_, ?_, ?_⟩
  · intro c hc hcx
    simp [getThresholdState, h, hc, hcx]
  · intro m hm hmx
    rcases hcrit : r.critical with _ | c
    · simp [getThresholdState, h, hm, hmx, hcrit]
    · by_cases hcx : c ≤ x
      · simp [getThresholdState, h, hcrit, hcx]
      · simp [getThresholdState, h, hm, hmx, hcrit, hcx]
  · intro hu m hm hwarn hlt hcrit
    have hnotmax : ¬ m ≤ x := not_le.mpr hlt
    have hwarn' : m ≤ x + WARNING_MARGIN_CELSIUS := sub_le_iff_le_add.mp hwarn
    rcases hc : r.critical with _ | c
    · simp [getThresholdState, h, hm, hu, hwarn, hwarn', hnotmax, hc]
    · have hcx := not_le.mpr (hcrit c hc)
      simp [getThresholdState, h, hm, hu, hwarn, hwarn', hnotmax, hc, hcx]
  · intro m hm hbelow hcrit
    have hnotmax : ¬ m ≤ x := by
      have hw : (0 : ℚ) ≤ WARNING_MARGIN_CELSIUS := by norm_num [WARNING_MARGIN_CELSIUS]
      intro hx
      have hxm : x < m := lt_of_lt_of_le hbelow (by linarith)
      exact absurd hx (not_le.mpr hxm)
    have hnotwarn : ¬ m - WARNING_MARGIN_CELSIUS ≤ x := not_le.mpr hbelow
    have hnotwarn' : ¬ m ≤ x + WARNING_MARGIN_CELSIUS := by
      intro hx
      exact hnotwarn (sub_le_iff_le_add.mpr hx)
    rcases hc : r.critical with _ | c
    · rcases hu : r.unit with _ | u
      · simp [getThresholdState, h, hm, hc, hu, hnotmax, hnotwarn, hnotwarn']
      · simp [getThresholdState, h, hm, hc, hu, hnotmax, hnotwarn, hnotwarn']
    · have hcx := not_le.mpr (hcrit c hc)
      rcases hu : r.unit with _ | u
      · simp [getThresholdState, h, hm, hc, hu, hcx, hnotmax, hnotwarn, hnotwarn']
      · simp [getThresholdState, h, hm, hc, hu, hcx, hnotmax, hnotwarn, hnotwarn']
  · norm_num [getThresholdState, thresholdExample, WARNING_MARGIN_CELSIUS]
  · norm_num [getThresholdState, thresholdExample, WARNING_MARGIN_CELSIUS, CELSIUS_UNIT]
  · norm_num [getThresholdState, thresholdExample, WARNING_MARGIN_CELSIUS, CELSIUS_UNIT]

/-- Witness for getThresholdState_spec at the warning example reading. -/
theorem getThresholdState_spec_witness :
    (thresholdExample 76).input = some 76
    ∧ (((∀ c, (thresholdExample 76).critical = some c → c ≤ 76 →
            getThresholdState (thresholdExample 76) = .danger)
        ∧ (∀ m, (thresholdExample 76).max = some m → m ≤ 76 →
            getThresholdState (thresholdExample 76) = .danger)
        ∧ ((thresholdExample 76).unit = some CELSIUS_UNIT →
            ∀ m, (thresholdExample 76).max = some m →
            m - WARNING_MARGIN_CELSIUS ≤ 76 → 76 < m →
            (∀ c, (thresholdExample 76).critical = some c → (76 : ℚ) < c) →
            getThresholdState (thresholdExample 76) = .warning)
        ∧ (∀ m, (thresholdExample 76).max = some m → (76 : ℚ) < m - WARNING_MARGIN_CELSIUS →
            (∀ c, (thresholdExample 76).critical = some c → (76 : ℚ) < c) →
            getThresholdState (thresholdExample 76) = .normal))
      ∧ (getThresholdState (thresholdExample 82) = .danger
        ∧ getThresholdState (thresholdExample 76) = .warning
        ∧ getThresholdState (thresholdExample 40) = .normal)) :=
  ⟨rfl, getThresholdState_spec (thresholdExample 76) 76 rfl⟩

/-! Provider error taxonomy (src/src/lib/providers/types.ts). -/

/-- Recoverability classification of a ProviderError. -/
inductive ProviderErrorCode where
  | permissionDenied
  | unavailable
  | unexpected
  deriving DecidableEq, Repr

/-- A typed provider error: message plus classification code.  The optional
cause chain is not modelled. -/
structure ProviderError where
  message : String
  code : ProviderErrorCode
  deriving DecidableEq, Repr

/-! Powercap RAPL power derivation (src/unnamed/part_008, readWatts). -/

/-- Micro-units per watt, used to convert microwatts and microjoules. -/
def MICRO_UNITS_PER_WATT : ℚ := 1000000

/-- Mutable per-domain tracking state of the powercap provider. -/
structure RaplDomainState where
  id : String
  path : String
  label : String
  powerPath : Option String
  energyPath : Option String
  maxEnergy : Option ℚ
  lastEnergy : Option ℚ
  lastTimestamp : Option ℚ
  cachedPower : Option ℚ
  deriving DecidableEq, Repr

/-- Model of readNumberFile: no read happens when the path is absent; an
attempted read either raises a ProviderError or yields the parsed number, both
supplied by the caller as the read outcome. -/
def readNumberFileModel (path : Option String) (read : Except ProviderError (Option ℚ)) :
    Except ProviderError (Option ℚ) :=
  match path with
  | none => .ok none
  | some _ => read

/-- The energy-counter branch of readWatts: derive watts from the energy delta
and elapsed time, handling wraparound via the declared maximum range,
discarding negative deltas, and priming the stored counter on the first
reading. -/
def readWattsEnergy (domain : RaplDomainState) (energyRead : Except ProviderError (Option ℚ))
    (now : ℚ) : Except ProviderError (Option ℚ × RaplDomainState) :=
  match domain.energyPath with
  | none => .ok (none, domain)
  | some _ =>
    match readNumberFileModel domain.energyPath energyRead with
    | .error e => .error e
    | .ok none => .ok (none, { domain with lastEnergy := none, lastTimestamp := none })
    | .ok (some energy) =>
      match domain.lastEnergy, domain.lastTimestamp with
      | some lastEnergy, some lastTimestamp =>
          let elapsedMs := now - lastTimestamp
          if elapsedMs ≤ 0 then
            .ok (none, { domain with lastEnergy := some energy, lastTimestamp := some now })
          else
            let delta0 := energy - lastEnergy
            let deltaEnergy :=
              if delta0 < 0 then
                match domain.maxEnergy with
                | some maxEnergy => delta0 + maxEnergy
                | none => delta0
              else delta0
            if deltaEnergy < 0 then
              .ok (none, { domain with lastEnergy := some energy, lastTimestamp := some now })
            else
              .ok (some (deltaEnergy / MICRO_UNITS_PER_WATT / (elapsedMs / 1000)),
                { domain with lastEnergy := some energy, lastTimestamp := some now })
      | _, _ => .ok (none, { domain with lastEnergy := some energy, lastTimestamp := some now })

/-- Embedding of readWatts: prefer the direct power file (with a cached
fallback), otherwise derive watts from the energy counter.  The outcomes of
the two file reads are supplied as arguments; Date.now() is the argument
now. -/
def readWatts (domain : RaplDomainState) (powerRead energyRead : Except ProviderError (Option ℚ))
    (now : ℚ) : Except ProviderError (Option ℚ × RaplDomainState) :=
  match domain.powerPath with
  | some _ =>
    match readNumberFileModel domain.powerPath powerRead with
    | .error e => .error e
    | .ok (some microwatts) =>
        let watts := microwatts / MICRO_UNITS_PER_WATT
        .ok (some watts, { domain with cachedPower := some watts })
    | .ok none =>
        match domain.cachedPower with
        | some cached => .ok (some cached, domain)
        | none => readWattsEnergy domain energyRead now
  | none => readWattsEnergy domain energyRead now

/-- C6: for an energy-only domain, a successful energy read yields watts equal
to the energy delta over the elapsed time; a negative delta with a declared
maximum range has the maximum added before dividing; the first reading (no
stored previous energy or timestamp) yields no value and no error while
priming the stored counter; a negative delta without a declared maximum is
discarded with no value and no error, advancing the stored counter. -/
theorem readWatts_energy_spec (domain : RaplDomainState) (hp : domain.powerPath = none)
    (ep : String) (he : domain.energyPath = some ep) :
    (∀ powerRead lastEnergy lastTimestamp energy now,
        domain.lastEnergy = some lastEnergy → domain.lastTimestamp = some lastTimestamp →
        0 < now - lastTimestamp → 0 ≤ energy - lastEnergy →
        readWatts domain powerRead (.ok (some energy)) now
          = .ok (some ((energy - lastEnergy) / MICRO_UNITS_PER_WATT / ((now - lastTimestamp) / 1000)),
              { domain with lastEnergy := some energy, lastTimestamp := some now }))
    ∧ (∀ powerRead lastEnergy lastTimestamp maxEnergy energy now,
        domain.lastEnergy = some lastEnergy → domain.lastTimestamp = some lastTimestamp →
        domain.maxEnergy = some maxEnergy →
        0 < now - lastTimestamp → energy - lastEnergy < 0 →
        0 ≤ energy - lastEnergy + maxEnergy →
        readWatts domain powerRead (.ok (some energy)) now
          = .ok (some ((energy - lastEnergy + maxEnergy) / MICRO_UNITS_PER_WATT
                / ((now - lastTimestamp) / 1000)),
              { domain with lastEnergy := some energy, lastTimestamp := some now }))
    ∧ (∀ powerRead energy now,
        (domain.lastEnergy = none ∨ domain.lastTimestamp = none) →
        readWatts domain powerRead (.ok (some energy)) now
          = .ok (none, { domain with lastEnergy := some energy, lastTimestamp := some now }))
    ∧ (∀ powerRead lastEnergy lastTimestamp energy now,
        domain.lastEnergy = some lastEnergy → domain.lastTimestamp = some lastTimestamp →
        domain.maxEnergy = none →
        0 < now - lastTimestamp → energy - lastEnergy < 0 →
        readWatts domain powerRead (.ok (some energy)) now
          = .ok (none, { domain with lastEnergy := some energy, lastTimestamp := some now })) := by
  refine ⟨?_, ?_, ?_, ?_⟩
  · intro powerRead lastEnergy lastTimestamp energy now hle hlt helapsed hdelta
    simp only [readWatts, readWattsEnergy, readNumberFileModel, hp, he, hle, hlt]
    rw [if_neg (not_le.mpr helapsed), if_neg (not_lt.mpr hdelta), if_neg (not_lt.mpr hdelta)]
  · intro powerRead lastEnergy lastTimestamp maxEnergy energy now hle hlt hme helapsed hdelta hwrap
    simp only [readWatts, readWattsEnergy, readNumberFileModel, hp, he, hle, hlt, hme]
    rw [if_neg (not_le.mpr helapsed), if_pos hdelta, if_neg (not_lt.mpr hwrap)]
  · intro powerRead energy now hnone
    rcases hnone with hnone | hnone
    · rcases hlt : domain.lastTimestamp with _ | lastTimestamp <;>
        simp [readWatts, readWattsEnergy, readNumberFileModel, hp, he, hnone, hlt]
    · rcases hle : domain.lastEnergy with _ | lastEnergy <;>
        simp [readWatts, readWattsEnergy, readNumberFileModel, hp, he, hnone, hle]
  · intro powerRead lastEnergy lastTimestamp energy now hle hlt hme helapsed hdelta
    simp only [readWatts, readWattsEnergy, readNumberFileModel, hp, he, hle, hlt, hme]
    rw [if_neg (not_le.mpr helapsed), if_pos hdelta, if_pos hdelta]

/-- Energy-only domain used by the witness of readWatts_energy_spec. -/
def readWattsWitnessDomain : RaplDomainState :=
  { id := "intel-rapl:0", path := "/sys/class/powercap/intel-rapl:0",
    label := "package-0", powerPath := none,
    energyPath := some "/sys/class/powercap/intel-rapl:0/energy_uj",
    maxEnergy := some 100, lastEnergy := some 30, lastTimestamp := some 1000,
    cachedPower := none }

/-- Witness for readWatts_energy_spec: an energy-only domain advancing from
counter 30 at time 1000 to counter 50 at time 2000. -/
theorem readWatts_energy_spec_witness :
    readWattsWitnessDomain.powerPath = none
    ∧ readWattsWitnessDomain.energyPath
        = some "/sys/class/powercap/intel-rapl:0/energy_uj"
    ∧ readWattsWitnessDomain.lastEnergy = some 30
    ∧ readWattsWitnessDomain.lastTimestamp = some 1000
    ∧ (0 : ℚ) < 2000 - 1000
    ∧ (0 : ℚ) ≤ 50 - 30
    ∧ readWatts readWattsWitnessDomain (.ok none) (.ok (some 50)) 2000
        = .ok (some ((50 - 30) / MICRO_UNITS_PER_WATT / ((2000 - 1000) / 1000)),
            { readWattsWitnessDomain with lastEnergy := some 50, lastTimestamp := some 2000 }) :=
  ⟨rfl, rfl, rfl, rfl, by norm_num, by norm_num,
    (readWatts_energy_spec readWattsWitnessDomain rfl
        "/sys/class/powercap/intel-rapl:0/energy_uj" rfl).1
      (.ok none) 30 1000 50 2000 rfl rfl (by norm_num) (by norm_num)⟩

/-! Canonical sample shape (src/src/lib/providers/types.ts). -/

/-- Kind of a sensor sample. -/
inductive SensorKind where
  | temp
  | fan
  | volt
  | other
  deriving DecidableEq, Repr

/-- Rendering of a SensorKind as the string literal of the union type. -/
def SensorKind.toStr : SensorKind → String
  | .temp => "temp"
  | .fan => "fan"
  | .volt => "volt"
  | .other => "other"

/-- Engineering unit associated with each sensor kind. -/
def SENSOR_KIND_TO_UNIT : SensorKind → Option String
  | .temp => some "°C"
  | .fan => some "RPM"
  | .volt => some "V"
  | .other => none

/-- UI category associated with each sensor kind. -/
def SENSOR_KIND_TO_CATEGORY : SensorKind → String
  | .temp => "temperature"
  | .fan => "fan"
  | .volt => "voltage"
  | .other => "unknown"

/-- Canonical sample emitted by every provider. -/
structure SensorSample where
  kind : SensorKind
  id : String
  label : String
  value : ℚ
  min : Option ℚ
  max : Option ℚ
  critical : Option ℚ
  unit : Option String
  chipId : Option String
  chipLabel : Option String
  chipName : Option String
  category : Option String
  deriving DecidableEq, Repr

/-- JavaScript nullish coalescing on optional values. -/
def jsOr {α : Type} (a b : Option α) : Option α :=
  match a with
  | some x => some x
  | none => b

/-! NVMe provider (src/unnamed/part_004). -/

/-- Device entry produced by the nvme list inventory command. -/
structure NvmeDeviceInfo where
  name : String
  model : Option String
  serial : Option String
  deriving DecidableEq, Repr

/-- Relevant fields of an NVMe SMART log.  Present finite numbers are some,
anything else none. -/
structure NvmeSmartLog where
  composite_temperature : Option ℚ
  temperature : Option ℚ
  deriving DecidableEq, Repr

/-- Embedding of the NVMe provider's buildSample. -/
def nvmeBuildSample (device : NvmeDeviceInfo) (temperature : ℚ) : SensorSample :=
  let labelParts := [device.model.getD "NVMe device"]
    ++ (match device.serial with
        | some serial => ["#" ++ serial]
        | none => [])
  { kind := .temp,
    id := device.name ++ ":temperature",
    label := String.intercalate " " labelParts,
    value := temperature,
    min := none, max := none, critical := none,
    unit := SENSOR_KIND_TO_UNIT .temp,
    chipId := some device.name,
    chipLabel := some (match device.model with
      | some model => model ++ " (" ++ device.name ++ ")"
      | none => device.name),
    chipName := some (device.model.getD device.name),
    category := none }

/-- Device loop of one NVMe poll: read each device's SMART log, collect the
converted temperatures, report and abort on permission-denied, skip devices
whose reads classify as unavailable or unexpected, and finally deliver the
collected samples through onChange.  The result lists the arguments of the
onChange calls and of the onError calls made during the poll. -/
def nvmePollLoop (readLog : String → Except ProviderError NvmeSmartLog) :
    List NvmeDeviceInfo → List SensorSample → List (List SensorSample) × List ProviderError
  | [], samples => ([samples], [])
  | device :: rest, samples =>
    match readLog device.name with
    | .error e =>
        if e.code = .permissionDenied then ([], [e])
        else nvmePollLoop readLog rest samples
    | .ok log =>
        match convertTemperature (jsOr log.composite_temperature log.temperature) with
        | some temperature => nvmePollLoop readLog rest (samples ++ [nvmeBuildSample device temperature])
        | none => nvmePollLoop readLog rest samples

/-- Embedding of one run of the NVMe provider's poll: list the devices, emit
an empty onChange when none exist, otherwise run the device loop.  A failing
inventory command reports its ProviderError through onError. -/
def nvmePoll (devicesResult : Except ProviderError (List NvmeDeviceInfo))
    (readLog : String → Except ProviderError NvmeSmartLog) :
    List (List SensorSample) × List ProviderError :=
  match devicesResult with
  | .error e => ([], [e])
  | .ok devices =>
      if devices.isEmpty then ([[]], [])
      else nvmePollLoop readLog devices []

/-- Boolean test distinguishing a permission-denied SMART-log read outcome. -/
def isPermDeniedRead (r : Except ProviderError NvmeSmartLog) : Bool :=
  match r with
  | .error e => decide (e.code = .permissionDenied)
  | .ok _ => false

/-- C7 (amended): when a permission-denied error occurs on one device's
SMART-log read, the error is reported through context.onError and the poll
cycle aborts: the remaining devices are not read and the samples already
obtained from earlier devices are not delivered (onChange is not called in
that cycle). -/
theorem nvmePoll_permission_denied_aborts
    (readLog : String → Except ProviderError NvmeSmartLog)
    (pre : List NvmeDeviceInfo) (device : NvmeDeviceInfo) (post : List NvmeDeviceInfo)
    (e : ProviderError)
    (hd : readLog device.name = .error e) (hcode : e.code = .permissionDenied)
    (hpre : ∀ d ∈ pre, isPermDeniedRead (readLog d.name) = false) :
    nvmePoll (.ok (pre ++ device :: post)) readLog = ([], [e]) := by
  have hloop : ∀ (pre' : List NvmeDeviceInfo) (samples : List SensorSample),
      (∀ d ∈ pre', isPermDeniedRead (readLog d.name) = false) →
      nvmePollLoop readLog (pre' ++ device :: post) samples = ([], [e]) := by
    intro pre'
    induction pre' with
    | nil =>
        intro samples _
        simp only [List.nil_append, nvmePollLoop, hd]
        rw [if_pos hcode]
    | cons d rest ih =>
        intro samples hall
        have hdfalse := hall d (List.mem_cons_self d rest)
        have hrest : ∀ d' ∈ rest, isPermDeniedRead (readLog d'.name) = false :=
          fun d' hd' => hall d' (List.mem_cons_of_mem d hd')
        rcases hread : readLog d.name with e' | log
        · have hne : ¬ e'.code = .permissionDenied := by
            rw [hread] at hdfalse
            simpa [isPermDeniedRead] using hdfalse
          simp only [List.cons_append, nvmePollLoop, hread, if_neg hne]
          exact ih samples hrest
        · simp only [List.cons_append, nvmePollLoop, hread]
          rcases hconv : convertTemperature (jsOr log.composite_temperature log.temperature)
            with _ | t
          · simp only [hconv]
            exact ih samples hrest
          · simp only [hconv]
            exact ih _ hrest
  have hne : ¬ (pre ++ device :: post).isEmpty = true := by
    simp
  simp only [nvmePoll, if_neg hne]
  exact hloop pre [] hpre

/-- Devices used by the C7 counterexample and witness. -/
def nvmeDev0 : NvmeDeviceInfo :=
  { name := "/dev/nvme0", model := some "Samsung 970", serial := some "S4EW" }

/-- Second device, whose SMART-log read is denied. -/
def nvmeDev1 : NvmeDeviceInfo :=
  { name := "/dev/nvme1", model := none, serial := none }

/-- The permission error raised by the second device's SMART-log read. -/
def nvmePermError : ProviderError :=
  { message := "Permission denied while executing nvme command", code := .permissionDenied }

/-- Scripted SMART-log outcomes: the first device reads 310 Kelvin, any other
device is denied. -/
def nvmeCexReadLog : String → Except ProviderError NvmeSmartLog :=
  fun name =>
    if name = "/dev/nvme0" then .ok { composite_temperature := some 310, temperature := none }
    else .error nvmePermError

/-- C7 counterexample: with one successful device followed by a denied device,
the poll reports the error but makes no onChange call at all, so the sample
already obtained from the first device is not delivered, contrary to the
claim. -/
theorem nvmePoll_cex :
    nvmePoll (.ok [nvmeDev0, nvmeDev1]) nvmeCexReadLog = ([], [nvmePermError])
    ∧ ¬ ∃ delivered ∈ (nvmePoll (.ok [nvmeDev0, nvmeDev1]) nvmeCexReadLog).1,
        nvmeBuildSample nvmeDev0 37 ∈ delivered := by
  have h0 : nvmeCexReadLog nvmeDev0.name
      = .ok { composite_temperature := some 310, temperature := none } := by
    simp [nvmeCexReadLog, nvmeDev0]
  have h1 : nvmeCexReadLog nvmeDev1.name = .error nvmePermError := by
    simp only [nvmeCexReadLog, nvmeDev1]
    rw [if_neg (by decide)]
  have hconv : convertTemperature (jsOr (some (310 : ℚ)) none) = some 37 := by
    norm_num [convertTemperature, jsOr]
  have hpoll : nvmePoll (.ok [nvmeDev0, nvmeDev1]) nvmeCexReadLog = ([], [nvmePermError]) := by
    simp only [nvmePoll, List.isEmpty_cons, Bool.false_eq_true, if_false,
      nvmePollLoop, h0, h1, hconv]
    simp [nvmePermError]
  refine ⟨hpoll, ?_⟩
  rw [hpoll]
  simp

/-- Witness for nvmePoll_permission_denied_aborts on the concrete two-device
poll. -/
theorem nvmePoll_permission_denied_aborts_witness :
    nvmeCexReadLog nvmeDev1.name = .error nvmePermError
    ∧ nvmePermError.code = .permissionDenied
    ∧ (∀ d ∈ [nvmeDev0], isPermDeniedRead (nvmeCexReadLog d.name) = false)
    ∧ nvmePoll (.ok ([nvmeDev0] ++ nvmeDev1 :: [])) nvmeCexReadLog = ([], [nvmePermError]) :=
  ⟨by
      simp only [nvmeCexReadLog, nvmeDev1]
      rw [if_neg (by decide)],
    rfl,
    by
      intro d hdmem
      have hd0 : d = nvmeDev0 := by simpa using hdmem
      subst hd0
      simp [isPermDeniedRead, nvmeCexReadLog, nvmeDev0],
    nvmePoll_permission_denied_aborts nvmeCexReadLog [nvmeDev0] nvmeDev1 [] nvmePermError
      (by
        simp only [nvmeCexReadLog, nvmeDev1]
        rw [if_neg (by decide)])
      rfl
      (by
        intro d hdmem
        have hd0 : d = nvmeDev0 := by simpa using hdmem
        subst hd0
        simp [isPermDeniedRead, nvmeCexReadLog, nvmeDev0])⟩

/-! Aggregation across providers (src/unnamed/part_012, aggregateSamples). -/

/-- Fixed provider precedence: primary providers hwmon and lm-sensors followed
by the auxiliary providers powercap and nvme. -/
def AGGREGATION_ORDER : List String := ["hwmon", "lm-sensors", "powercap", "nvme"]

/-- A sensor sample tagged with the name of the provider it came from. -/
structure SampleWithProvider extends SensorSample where
  provider : String
  deriving DecidableEq, Repr

/-- Dedupe key of a sample: its kind and id joined by a colon. -/
def dedupeKey (s : SensorSample) : String :=
  s.kind.toStr ++ ":" ++ s.id

/-- The deduplication loop of aggregateSamples: keep each sample whose dedupe
key has not been seen yet, recording the keys of kept samples. -/
def dedupeLoop : List SampleWithProvider → List String → List SampleWithProvider
  | [], _ => []
  | s :: rest, seen =>
      if seen.contains (dedupeKey s.toSensorSample) then dedupeLoop rest seen
      else s :: dedupeLoop rest (dedupeKey s.toSensorSample :: seen)

/-- Embedding of aggregateSamples.  The per-provider sample map is modelled as
a function from provider name to sample list (a Map read with a default of the
empty list), which makes the result independent of the order in which the map
was populated by construction; the iteration order over providers is the fixed
AGGREGATION_ORDER, exactly as in the source. -/
def aggregateSamples (samplesByProvider : String → List SensorSample) :
    List SampleWithProvider :=
  dedupeLoop
    (AGGREGATION_ORDER.flatMap fun providerName =>
      (samplesByProvider providerName).map fun sample =>
        { toSensorSample := sample, provider := providerName })
    []

theorem dedupeLoop_filter (k : String) : ∀ (l : List SampleWithProvider) (seen : List String),
    (dedupeLoop l seen).filter (fun s => dedupeKey s.toSensorSample == k)
      = if seen.contains k then []
        else (l.filter (fun s => dedupeKey s.toSensorSample == k)).take 1 := by
  intro l
  induction l with
  | nil =>
      intro seen
      cases h : seen.contains k <;> simp [dedupeLoop, h]
  | cons s rest ih =>
      intro seen
      by_cases hkey : seen.contains (dedupeKey s.toSensorSample) = true
      · rw [dedupeLoop, if_pos hkey, ih seen]
        by_cases hk : seen.contains k = true
        · rw [if_pos hk, if_pos hk]
        · have hne : ¬ dedupeKey s.toSensorSample == k := by
            intro hbeq
            have : dedupeKey s.toSensorSample = k := by simpa using hbeq
            rw [this] at hkey
            exact hk hkey
          rw [if_neg hk, if_neg hk, List.filter_cons_of_neg (by simpa using hne)]
      · rw [dedupeLoop, if_neg hkey]
        by_cases heq : dedupeKey s.toSensorSample = k
        · have hPs : (fun x : SampleWithProvider => dedupeKey x.toSensorSample == k) s = true := by
            simpa using heq
          have hkfalse : ¬ seen.contains k = true := by
            rw [← heq]
            exact hkey
          rw [List.filter_cons_of_pos (p := fun x : SampleWithProvider =>
              dedupeKey x.toSensorSample == k) hPs,
            ih (dedupeKey s.toSensorSample :: seen)]
          have hmem : (dedupeKey s.toSensorSample :: seen).contains k = true := by
            simp [heq]
          rw [if_pos hmem, if_neg hkfalse, List.filter_cons_of_pos (p := fun x : SampleWithProvider =>
              dedupeKey x.toSensorSample == k) hPs]
          simp
        · rw [List.filter_cons_of_neg (by simpa using heq)]
          rw [ih (dedupeKey s.toSensorSample :: seen)]
          have hsame : (dedupeKey s.toSensorSample :: seen).contains k = seen.contains k := by
            rw [List.contains_cons]
            have hne : (k == dedupeKey s.toSensorSample) = false :=
              beq_eq_false_iff_ne.mpr (fun hcontra => heq hcontra.symm)
            rw [hne, Bool.false_or]
          rw [hsame, List.filter_cons_of_neg (by simpa using heq)]

theorem filter_map_tag (m : List SensorSample) (p k : String) :
    ((m.map fun sample =>
        ({ toSensorSample := sample, provider := p } : SampleWithProvider)).filter
      (fun s => dedupeKey s.toSensorSample == k))
      = (m.filter (fun s => dedupeKey s == k)).map fun sample =>
          ({ toSensorSample := sample, provider := p } : SampleWithProvider) := by
  induction m with
  | nil => rfl
  | cons s rest ih =>
      by_cases h : (dedupeKey s == k) = true
      · simp [List.filter_cons, h, ih]
      · simp [List.filter_cons, h, ih]

theorem filter_flatMap_first {α : Type} (P : α → Bool) :
    ∀ (i : Nat) (order : List String) (F : String → List α) (pa : String) (sa : α)
      (tail : List α),
      order.get? i = some pa →
      (∀ p ∈ order.take i, (F p).filter P = []) →
      (F pa).filter P = sa :: tail →
      ((order.flatMap F).filter P).take 1 = [sa] := by
  intro i
  induction i with
  | zero =>
      intro order F pa sa tail hget _ hpa
      match order, hget with
      | q :: rest, hget =>
        have hq : q = pa := by simpa using hget
        subst hq
        simp only [List.flatMap_cons, List.filter_append, hpa]
        rfl
  | succ n ih =>
      intro order F pa sa tail hget hprev hpa
      match order, hget with
      | q :: rest, hget =>
        have hq : (F q).filter P = [] := by
          refine hprev q ?_
          simp [List.take_succ_cons]
        have hrest : ∀ p ∈ rest.take n, (F p).filter P = [] := by
          intro p hp
          refine hprev p ?_
          simp [List.take_succ_cons, hp]
        simp only [List.flatMap_cons, List.filter_append, hq, List.nil_append]
        exact ih rest F pa sa tail (by simpa using hget) hrest hpa

/-- C2: when two providers report samples with the same dedupe key, the
aggregation surfaces exactly the sample of the provider earlier in the fixed
precedence order hwmon, lm-sensors, powercap, nvme, tagged with that
provider's name, and every later provider's sample with that key is
discarded.  The map argument is a function, so the result cannot depend on
the population order of the per-provider map or on callback arrival order. -/
theorem aggregateSamples_precedence (samplesByProvider : String → List SensorSample)
    (i j : Nat) (pa pb k : String) (sa sb : SensorSample)
    (hij : i < j)
    (hpa : AGGREGATION_ORDER.get? i = some pa)
    (hpb : AGGREGATION_ORDER.get? j = some pb)
    (hprev : ∀ p ∈ AGGREGATION_ORDER.take i,
        (samplesByProvider p).filter (fun s => dedupeKey s == k) = [])
    (hsa : (samplesByProvider pa).filter (fun s => dedupeKey s == k) = [sa])
    (hsb : sb ∈ samplesByProvider pb) (hkb : dedupeKey sb = k)
    (hvals : sa.value ≠ sb.value) :
    (aggregateSamples samplesByProvider).filter (fun s => dedupeKey s.toSensorSample == k)
      = [{ toSensorSample := sa, provider := pa }] := by
  unfold aggregateSamples
  rw [dedupeLoop_filter k _ []]
  have hempty : (([] : List String).contains k) = false := rfl
  rw [hempty, if_neg (by simp)]
  refine filter_flatMap_first (fun (s : SampleWithProvider) => dedupeKey s.toSensorSample == k)
    i AGGREGATION_ORDER
    (fun providerName => (samplesByProvider providerName).map fun sample =>
      { toSensorSample := sample, provider := providerName })
    pa { toSensorSample := sa, provider := pa } [] hpa ?_ ?_
  · intro p hp
    rw [filter_map_tag, hprev p hp]
    rfl
  · rw [filter_map_tag, hsa]
    rfl

/-- The hwmon sample of the C2 witness: key temp:chip0:temp1, value 50. -/
def aggHwmonSample : SensorSample :=
  { kind := .temp, id := "chip0:temp1", label := "Temp 1", value := 50,
    min := none, max := none, critical := none, unit := none,
    chipId := none, chipLabel := none, chipName := none, category := none }

/-- The nvme sample of the C2 witness: same dedupe key, value 48. -/
def aggNvmeSample : SensorSample :=
  { kind := .temp, id := "chip0:temp1", label := "Temp 1", value := 48,
    min := none, max := none, critical := none, unit := none,
    chipId := none, chipLabel := none, chipName := none, category := none }

/-- Per-provider sample map of the C2 witness. -/
def aggWitnessMap : String → List SensorSample :=
  fun p =>
    if p = "hwmon" then [aggHwmonSample]
    else if p = "nvme" then [aggNvmeSample]
    else []

/-- Witness for aggregateSamples_precedence: hwmon (index 0) and nvme
(index 3) both report a sample with key temp:chip0:temp1 and different
values, and the aggregate keeps exactly hwmon's. -/
theorem aggregateSamples_precedence_witness :
    0 < 3
    ∧ AGGREGATION_ORDER.get? 0 = some "hwmon"
    ∧ AGGREGATION_ORDER.get? 3 = some "nvme"
    ∧ (∀ p ∈ AGGREGATION_ORDER.take 0,
        (aggWitnessMap p).filter (fun s => dedupeKey s == "temp:chip0:temp1") = [])
    ∧ (aggWitnessMap "hwmon").filter (fun s => dedupeKey s == "temp:chip0:temp1")
        = [aggHwmonSample]
    ∧ aggNvmeSample ∈ aggWitnessMap "nvme"
    ∧ dedupeKey aggNvmeSample = "temp:chip0:temp1"
    ∧ aggHwmonSample.value ≠ aggNvmeSample.value
    ∧ (aggregateSamples aggWitnessMap).filter
        (fun s => dedupeKey s.toSensorSample == "temp:chip0:temp1")
        = [{ toSensorSample := aggHwmonSample, provider := "hwmon" }] :=
  ⟨by decide, rfl, rfl, by decide, by decide, by decide, by decide, by decide,
    aggregateSamples_precedence aggWitnessMap 0 3 "hwmon" "nvme" "temp:chip0:temp1"
      aggHwmonSample aggNvmeSample (by decide) rfl rfl (by decide) (by decide) (by decide)
      (by decide) (by decide)⟩

/-! Sensor data model (src/types/sensors, per CONTRIBUTING_EN.md) and
conversion from samples (src/unnamed/part_012, samplesToSensorData). -/

/-- Grouping of readings belonging to one chip. -/
structure SensorChipGroup where
  id : String
  name : String
  label : String
  category : String
  readings : List Reading
  source : Option String
  deriving DecidableEq, Repr

/-- Aggregated dataset returned by the sensors hook and parser. -/
structure SensorData where
  groups : List SensorChipGroup
  timestamp : Option ℚ
  deriving DecidableEq, Repr

/-- The absence of sensor data: no groups and no timestamp. -/
def EMPTY_SENSOR_DATA : SensorData := { groups := [], timestamp := none }

/-- Insert one element into an already sorted list, after every element the
comparator puts no later. -/
def insertSorted {α : Type} (le : α → α → Bool) (x : α) : List α → List α
  | [] => [x]
  | y :: ys => if le y x then y :: insertSorted le x ys else x :: y :: ys

/-- Stable insertion sort, modelling Array.prototype.sort with a comparator. -/
def stableSortBy {α : Type} (le : α → α → Bool) : List α → List α
  | [] => []
  | x :: xs => insertSorted le x (stableSortBy le xs)

/-- Model of the Intl.Collator comparison used by sortGroups: a JS library
built-in outside the repository, modelled as code-point string order.  The
claims settled here do not depend on the particular total order chosen. -/
def collatorLe (a b : String) : Bool := decide (a ≤ b)

/-- Embedding of sortGroups: sort the groups and each group's readings by
label. -/
def sortGroups (groups : List SensorChipGroup) : List SensorChipGroup :=
  (stableSortBy (fun a b => collatorLe a.label b.label) groups).map fun g =>
    { g with readings := stableSortBy (fun a b => collatorLe a.label b.label) g.readings }

/-- The reading built from one tagged sample inside samplesToSensorData. -/
def readingOfSample (s : SampleWithProvider) : Reading :=
  { label := s.label, input := some s.value, min := s.min, max := s.max,
    critical := s.critical, unit := jsOr s.unit (SENSOR_KIND_TO_UNIT s.kind) }

/-- One step of the grouping loop of samplesToSensorData: append the reading
to the existing group with the same chip-and-category key, or append a new
group, preserving Map insertion order. -/
def addSampleToGroups (groups : List SensorChipGroup) (s : SampleWithProvider) :
    List SensorChipGroup :=
  let category := s.category.getD (SENSOR_KIND_TO_CATEGORY s.kind)
  let chipId := s.chipId.getD s.id
  let groupKey := chipId ++ ":" ++ category
  let reading := readingOfSample s
  if groups.any fun g => g.id == groupKey then
    groups.map fun g =>
      if g.id == groupKey then { g with readings := g.readings ++ [reading] } else g
  else
    let name := s.chipName.getD chipId
    let newGroup : SensorChipGroup :=
      { id := groupKey, name := name, label := s.chipLabel.getD name,
        category := category, readings := [reading], source := some s.provider }
    groups ++ [newGroup]

/-- Embedding of samplesToSensorData: empty input gives the empty dataset,
otherwise samples are grouped by chip and category and sorted. -/
def samplesToSensorData (samples : List SampleWithProvider) : SensorData :=
  if samples.isEmpty then EMPTY_SENSOR_DATA
  else { groups := sortGroups (samples.foldl addSampleToGroups []), timestamp := none }

/-! Aggregation engine state machine (src/unnamed/part_012, useSensors). -/

/-- Status values exposed by the useSensors hook. -/
inductive SensorsStatus where
  | loading
  | ready
  | noData
  | noSources
  | needsPrivileges
  | error
  deriving DecidableEq, Repr

/-- The React state held by useSensors. -/
structure UseSensorsState where
  data : SensorData
  isLoading : Bool
  status : SensorsStatus
  activeProvider : Option String
  lastError : Option String
  deriving DecidableEq, Repr

/-- One aggregation-engine instance: the React state together with the
effect-scoped mutable variables samplesByProvider, permissionDeniedRef and
activeProvider (the committed primary provider's name). -/
structure EngineState where
  ui : UseSensorsState
  samplesByProvider : String → List SensorSample
  permissionDenied : Bool
  activeProviderName : Option String

/-- Embedding of updateState's setState function: frozen when the status is
needs-privileges or error; otherwise either the empty-aggregate state or the
refreshed data with a status of ready, or needs-privileges when a permission
error is outstanding. -/
def updateStateFn (samplesByProvider : String → List SensorSample)
    (permissionDenied : Bool) (activeProviderName : Option String)
    (prev : UseSensorsState) : UseSensorsState :=
  let aggregated := aggregateSamples samplesByProvider
  if prev.status = .needsPrivileges ∨ prev.status = .error then prev
  else if aggregated.isEmpty then
    { data := EMPTY_SENSOR_DATA, isLoading := false,
      status := if activeProviderName.isSome then .noData else .noSources,
      activeProvider := jsOr activeProviderName prev.activeProvider,
      lastError := prev.lastError }
  else
    let providerName := jsOr activeProviderName (aggregated.head?.map fun s => s.provider)
    let hasPermissionError := permissionDenied || decide (prev.status = .needsPrivileges)
    { data := samplesToSensorData aggregated, isLoading := false,
      status := if hasPermissionError then .needsPrivileges else .ready,
      activeProvider := providerName,
      lastError := if hasPermissionError then prev.lastError else none }

/-- Embedding of handleProviderError: a permission-denied error marks the
permission flag, refreshes the data from the current aggregate when possible
and forces the status to needs-privileges; any other error only moves the
state to error when neither ready nor needs-privileges has been reached. -/
def handleProviderErrorFn (engine : EngineState) (providerName : String)
    (e : ProviderError) : EngineState :=
  if e.code = .permissionDenied then
    let aggregated := aggregateSamples engine.samplesByProvider
    let fallbackName := jsOr engine.activeProviderName
      (jsOr (aggregated.head?.map fun s => s.provider) (some providerName))
    let prev := engine.ui
    let newUi : UseSensorsState :=
      { data := if aggregated.isEmpty then prev.data else samplesToSensorData aggregated,
        isLoading := false, status := .needsPrivileges,
        activeProvider := jsOr prev.activeProvider fallbackName,
        lastError := some e.message }
    { engine with permissionDenied := true, ui := newUi }
  else
    let prev := engine.ui
    if prev.status = .ready ∨ prev.status = .needsPrivileges then engine
    else
      let newUi : UseSensorsState :=
        { data := prev.data, isLoading := false, status := .error,
          activeProvider := some providerName, lastError := some e.message }
      { engine with ui := newUi }

/-- Events driving one engine instance: a provider delivering its full sample
set through onChange, a provider reporting a ProviderError, and the retry
action exposed to the user. -/
inductive EngineEvent where
  | deliver (provider : String) (samples : List SensorSample)
  | providerError (provider : String) (e : ProviderError)
  | retry

/-- Point update of the per-provider sample map, modelling Map.prototype.set. -/
def setProviderSamples (m : String → List SensorSample) (p : String)
    (samples : List SensorSample) : String → List SensorSample :=
  fun q => if q = p then samples else m q

/-- The engine state created on mount and recreated by retry(): loading state,
empty caches and a cleared permission flag. -/
def initialUseSensorsState : UseSensorsState :=
  { data := EMPTY_SENSOR_DATA, isLoading := true, status := .loading,
    activeProvider := none, lastError := none }

/-- Engine initial-state record built from the initial UI state. -/
def initialEngineState : EngineState :=
  { ui := initialUseSensorsState, samplesByProvider := fun _ => [],
    permissionDenied := false, activeProviderName := none }

/-- Transition function of the aggregation engine: sample delivery stores the
provider's samples and runs updateState; errors run handleProviderError;
retry tears the engine down and recreates it from a clean slate. -/
def engineStep (engine : EngineState) : EngineEvent → EngineState
  | .deliver p samples =>
      let m := setProviderSamples engine.samplesByProvider p samples
      let newUi := updateStateFn m engine.permissionDenied engine.activeProviderName engine.ui
      { engine with samplesByProvider := m, ui := newUi }
  | .providerError p e => handleProviderErrorFn engine p e
  | .retry => initialEngineState

/-- C1 (amended): once the status is needs-privileges, a subsequent successful
sample delivery leaves the entire displayed state unchanged (the data is NOT
refreshed), every event other than retry leaves the status at
needs-privileges, and retry resets the status to loading. -/
theorem useSensors_needsPrivileges_sticky (engine : EngineState)
    (h : engine.ui.status = .needsPrivileges) :
    (∀ p samples, (engineStep engine (.deliver p samples)).ui = engine.ui)
    ∧ (∀ ev, ev ≠ EngineEvent.retry → (engineStep engine ev).ui.status = .needsPrivileges)
    ∧ (engineStep engine EngineEvent.retry).ui.status = .loading := by
  have hdeliver : ∀ p samples, (engineStep engine (.deliver p samples)).ui = engine.ui := by
    intro p samples
    simp [engineStep, updateStateFn, h]
  refine ⟨hdeliver, ?_, rfl⟩
  intro ev hev
  match ev with
  | .deliver p samples =>
      rw [hdeliver p samples]
      exact h
  | .providerError p e =>
      by_cases hc : e.code = .permissionDenied
      · simp [engineStep, handleProviderErrorFn, hc]
      · simp [engineStep, handleProviderErrorFn, hc, h]
  | .retry => exact absurd rfl hev

/-- First sample delivered by hwmon in the C1 counterexample trace. -/
def cexSampleA : SensorSample :=
  { kind := .temp, id := "chip0:temp1", label := "Tctl", value := 48,
    min := none, max := none, critical := none, unit := some "°C",
    chipId := some "chip0", chipLabel := some "CPU", chipName := some "k10temp",
    category := none }

/-- Second, different sample delivered by hwmon after the permission error. -/
def cexSampleB : SensorSample :=
  { kind := .temp, id := "chip0:temp1", label := "Tctl", value := 50,
    min := none, max := none, critical := none, unit := some "°C",
    chipId := some "chip0", chipLabel := some "CPU", chipName := some "k10temp",
    category := none }

/-- Engine state after hwmon delivers the first sample. -/
def cexState1 : EngineState :=
  engineStep initialEngineState (.deliver "hwmon" [cexSampleA])

/-- Engine state after nvme then reports a permission-denied error. -/
def cexState2 : EngineState :=
  engineStep cexState1 (.providerError "nvme"
    { message := "Permission denied while executing nvme command",
      code := .permissionDenied })

/-- Engine state after hwmon delivers a fresh, different sample. -/
def cexState3 : EngineState :=
  engineStep cexState2 (.deliver "hwmon" [cexSampleB])

/-- C1 counterexample: after a permission-denied error, a subsequent
successful delivery from another provider leaves the displayed SensorData
unchanged instead of updating it — the displayed data still reflects the old
sample and differs from the aggregation of the freshly delivered samples,
contrary to the claim that the data is updated while the status stays
needs-privileges. -/
theorem useSensors_cex :
    cexState3.ui.status = .needsPrivileges
    ∧ cexState3.ui.data = cexState2.ui.data
    ∧ cexState3.ui.data
        ≠ samplesToSensorData (aggregateSamples cexState3.samplesByProvider) := by
  refine ⟨by decide, by decide, by decide⟩

/-- Witness for useSensors_needsPrivileges_sticky at the concrete
needs-privileges state of the counterexample trace. -/
theorem useSensors_needsPrivileges_sticky_witness :
    cexState2.ui.status = .needsPrivileges
    ∧ ((∀ p samples, (engineStep cexState2 (.deliver p samples)).ui = cexState2.ui)
      ∧ (∀ ev, ev ≠ EngineEvent.retry →
          (engineStep cexState2 ev).ui.status = .needsPrivileges)
      ∧ (engineStep cexState2 EngineEvent.retry).ui.status = .loading) :=
  ⟨by decide, useSensors_needsPrivileges_sticky cexState2 (by decide)⟩

/-! Structural models of JavaScript string built-ins, evaluable by the
kernel. -/

/-- Model of String.prototype.trim: strip leading and trailing whitespace. -/
def trimModel (s : String) : String :=
  String.mk (((s.data.dropWhile Char.isWhitespace).reverse.dropWhile
    Char.isWhitespace).reverse)

/-- Model of String.prototype.toLowerCase. -/
def toLowerModel (s : String) : String :=
  String.mk (s.data.map Char.toLower)

/-! JSON payload normalisation (src/src/utils/parseSensorsJson.ts, both
variants). -/

/-- JSON values as delivered to parseSensorsJson.  Numbers are rationals
(finite doubles); an absent value (undefined) is represented by Option.none
one level up. -/
inductive Json where
  | null
  | bool (b : Bool)
  | num (q : ℚ)
  | str (s : String)
  | arr (items : List Json)
  | obj (fields : List (String × Json))

/-- Property access on a JSON value: a field of an object, or undefined. -/
def Json.getField : Json → String → Option Json
  | .obj fields, key => (fields.find? fun f => f.1 == key).map fun f => f.2
  | _, _ => none

/-- JavaScript truthiness of a possibly-undefined JSON value. -/
def jsTruthy : Option Json → Bool
  | none => false
  | some .null => false
  | some (.bool b) => b
  | some (.num q) => decide (q ≠ 0)
  | some (.str s) => decide (s ≠ "")
  | some (.arr _) => true
  | some (.obj _) => true

/-- JavaScript nullish coalescing: fall through on undefined and null. -/
def jsNullish (a b : Option Json) : Option Json :=
  match a with
  | none => b
  | some .null => b
  | some v => some v

/-- Embedding of isNonEmptyString as an extractor: the original string when
the value is a string whose trim is non-empty. -/
def asNonEmptyString : Option Json → Option String
  | some (.str s) => if 0 < (trimModel s).length then some s else none
  | _ => none

/-- Digit run at the front of a character list. -/
def digitsToNat (ds : List Char) : Nat :=
  ds.foldl (fun acc c => acc * 10 + (c.toNat - 48)) 0

/-- Exponent part of the parseFloat model: optional sign and digits; an
absent digit run leaves the exponent at zero, as parseFloat ignores a bare
exponent marker. -/
def parseExpModel (cs : List Char) : Int :=
  let sr : Int × List Char :=
    match cs with
    | '-' :: rest => (-1, rest)
    | '+' :: rest => (1, rest)
    | _ => (1, cs)
  let ds := (sr.2.span Char.isDigit).1
  if ds.isEmpty then 0 else sr.1 * (digitsToNat ds : Int)

/-- Model of Number.parseFloat on an already-trimmed string: longest numeric
prefix (sign, digits, optional fraction, optional exponent), none when no
numeric prefix exists; an Infinity prefix parses as a non-finite value, which
the caller rejects, so it is none here as well. -/
def parseFloatModel (s : String) : Option ℚ :=
  let cs := s.data
  let sr : ℚ × List Char :=
    match cs with
    | '-' :: rest => (-1, rest)
    | '+' :: rest => (1, rest)
    | _ => (1, cs)
  if sr.2.take 8 = "Infinity".data then none
  else
    let ip := sr.2.span Char.isDigit
    let fr : List Char × List Char :=
      match ip.2 with
      | '.' :: rest => rest.span Char.isDigit
      | _ => ([], ip.2)
    if ip.1.isEmpty && fr.1.isEmpty then none
    else
      let mantissa : ℚ := (digitsToNat ip.1 : ℚ)
        + (digitsToNat fr.1 : ℚ) / ((10 : ℚ) ^ fr.1.length)
      let expVal : Int :=
        match fr.2 with
        | 'e' :: rest => parseExpModel rest
        | 'E' :: rest => parseExpModel rest
        | _ => 0
      some (sr.1 * mantissa * (10 : ℚ) ^ expVal)

/-- Embedding of coerceNumber: finite numbers pass through (the rational
model carries only finite values), strings are trimmed and parsed with
parseFloat, anything else is undefined. -/
def coerceNumber (value : Option Json) : Option ℚ :=
  match value with
  | some (.num q) => some q
  | some (.str s) =>
      let trimmed := trimModel s
      if trimmed.length = 0 then none
      else parseFloatModel trimmed
  | _ => none

/-- Embedding of parseCategory: one of the four known category strings,
case-insensitively, otherwise unknown. -/
def parseCategory (value : Option Json) : String :=
  match value with
  | some (.str s) =>
      let lower := toLowerModel s
      if lower = "temperature" ∨ lower = "fan" ∨ lower = "voltage" ∨ lower = "power" then
        lower
      else "unknown"
  | _ => "unknown"

/-- Embedding of parseReading (shared shape of both variants; the first
variant's extra index parameter is unused in the source). -/
def parseReading (raw : Json) (fallbackLabel : String) : Option Reading :=
  match raw with
  | .obj _ =>
      match coerceNumber (raw.getField "input") with
      | none => none
      | some input =>
          let labelSource := jsOr (asNonEmptyString (raw.getField "label"))
            (asNonEmptyString (raw.getField "name"))
          let r : Reading :=
            { label := trimModel (labelSource.getD fallbackLabel),
              input := some input,
              min := coerceNumber (jsNullish (raw.getField "min")
                (jsNullish (raw.getField "lower") (raw.getField "low"))),
              max := coerceNumber (jsNullish (raw.getField "max")
                (jsNullish (raw.getField "upper") (raw.getField "high"))),
              critical := coerceNumber (jsNullish (raw.getField "critical")
                (jsNullish (raw.getField "crit") (raw.getField "crit_max"))),
              unit := (asNonEmptyString (raw.getField "unit")).map trimModel }
          some r
  | _ => none

/-- The readings array of a raw group: the readings field when it is an
array, else the values field when it is an array, else empty. -/
def readingsArrayOf (raw : Json) : List Json :=
  match raw.getField "readings" with
  | some (.arr items) => items
  | _ =>
      match raw.getField "values" with
      | some (.arr items) => items
      | _ => []

/-- Embedding of parseGroup, first variant (no source field). -/
def parseGroupV1 (raw : Json) (index : Nat) : Option SensorChipGroup :=
  match raw with
  | .obj _ =>
      let id := ((asNonEmptyString (raw.getField "id")).map trimModel).getD
        ("chip-" ++ toString index)
      let name := ((asNonEmptyString (raw.getField "name")).map trimModel).getD id
      let label := ((asNonEmptyString (raw.getField "label")).map trimModel).getD name
      let category := parseCategory (raw.getField "category")
      let readings := (readingsArrayOf raw).enum.filterMap fun p =>
        parseReading p.2 (label ++ " " ++ toString (p.1 + 1))
      if readings.isEmpty then none
      else
        let g : SensorChipGroup :=
          { id := id, name := name, label := label, category := category,
            readings := readings, source := none }
        some g
  | _ => none

/-- Embedding of parseGroup, second variant (also extracts a source field). -/
def parseGroupV2 (raw : Json) (index : Nat) : Option SensorChipGroup :=
  match raw with
  | .obj _ =>
      let id := ((asNonEmptyString (raw.getField "id")).map trimModel).getD
        ("chip-" ++ toString index)
      let name := ((asNonEmptyString (raw.getField "name")).map trimModel).getD id
      let label := ((asNonEmptyString (raw.getField "label")).map trimModel).getD name
      let category := parseCategory (raw.getField "category")
      let source := (asNonEmptyString (raw.getField "source")).map trimModel
      let readings := (readingsArrayOf raw).enum.filterMap fun p =>
        parseReading p.2 (label ++ " " ++ toString (p.1 + 1))
      if readings.isEmpty then none
      else
        let g : SensorChipGroup :=
          { id := id, name := name, label := label, category := category,
            readings := readings, source := source }
        some g
  | _ => none

/-- The raw group array of a payload: the payload itself when it is an array,
else its chips or groups field. -/
def rawGroupsOf (raw : Json) (container : Json) : List Json :=
  match raw with
  | .arr items => items
  | _ =>
      match container.getField "chips" with
      | some (.arr items) => items
      | _ =>
          match container.getField "groups" with
          | some (.arr items) => items
          | _ => []

/-- The timestamp of a payload: the first defined of the timestamp, updated
and time fields, coerced to a number. -/
def timestampOf (container : Json) : Option ℚ :=
  coerceNumber (jsNullish (container.getField "timestamp")
    (jsNullish (container.getField "updated") (container.getField "time")))

/-- Embedding of parseSensorsJson, first variant: the final returns test the
timestamp for JavaScript truthiness, so a timestamp of 0 is dropped. -/
def parseSensorsJsonV1 (raw : Option Json) : SensorData :=
  if jsTruthy raw = false then EMPTY_SENSOR_DATA
  else
    match raw with
    | none => EMPTY_SENSOR_DATA
    | some r =>
        let container := match r with | .obj _ => r | _ => Json.obj []
        let groups := (rawGroupsOf r container).enum.filterMap fun p => parseGroupV1 p.2 p.1
        let timestamp := timestampOf container
        if groups.isEmpty then
          match timestamp with
          | some t =>
              if t ≠ 0 then { groups := [], timestamp := some t } else EMPTY_SENSOR_DATA
          | none => EMPTY_SENSOR_DATA
        else
          match timestamp with
          | some t =>
              if t ≠ 0 then { groups := groups, timestamp := some t }
              else { groups := groups, timestamp := none }
          | none => { groups := groups, timestamp := none }

/-- Embedding of parseSensorsJson, second variant: the final returns test
that the timestamp is a number, so a timestamp of 0 is preserved. -/
def parseSensorsJsonV2 (raw : Option Json) : SensorData :=
  if jsTruthy raw = false then EMPTY_SENSOR_DATA
  else
    match raw with
    | none => EMPTY_SENSOR_DATA
    | some r =>
        let container := match r with | .obj _ => r | _ => Json.obj []
        let groups := (rawGroupsOf r container).enum.filterMap fun p => parseGroupV2 p.2 p.1
        let timestamp := timestampOf container
        if groups.isEmpty then
          match timestamp with
          | some t => { groups := [], timestamp := some t }
          | none => EMPTY_SENSOR_DATA
        else
          match timestamp with
          | some t => { groups := groups, timestamp := some t }
          | none => { groups := groups, timestamp := none }

/-- Payload with a timestamp of 0 and no chip entries. -/
def timestampZeroPayload : Json :=
  Json.obj [("timestamp", Json.num 0), ("chips", Json.arr [])]

/-- C3: at the failing input (timestamp 0, no chips), the first variant of
parseSensorsJson drops the timestamp and returns the empty default because 0
is falsy, while the second variant preserves it and returns groups [] with
timestamp 0 as the claim and the repository's own test demand. -/
theorem parseSensorsJson_timestamp_zero :
    parseSensorsJsonV1 (some timestampZeroPayload) = EMPTY_SENSOR_DATA
    ∧ parseSensorsJsonV2 (some timestampZeroPayload) = { groups := [], timestamp := some 0 }
    ∧ EMPTY_SENSOR_DATA = { groups := [], timestamp := none } := by
  refine ⟨by decide, by decide, rfl⟩

/-! CSV export of history series (src/src/utils/csv.ts, both variants). -/

/-- Model of the regex test for a character inside a string. -/
def containsChar (s : String) (c : Char) : Bool :=
  s.data.contains c

/-- Model of value.replace with the global quote regex: double every double
quote. -/
def doubleQuotes (s : String) : String :=
  String.mk (s.data.flatMap fun c => if c = '"' then ['"', '"'] else [c])

/-- Embedding of escapeCell: wrap a cell containing a comma, double quote or
newline in double quotes, doubling internal quotes; other cells pass
through. -/
def escapeCell (value : String) : String :=
  if containsChar value ',' || containsChar value '"' || containsChar value '\n' then
    "\"" ++ doubleQuotes value ++ "\""
  else value

/-- History series shape of the first buildHistoryCsv variant (field named
history in the source). -/
structure HistorySeriesV1 where
  key : String
  label : String
  history : List Sample
  deriving DecidableEq, Repr

/-- History series shape of the second buildHistoryCsv variant (field named
samples). -/
structure HistorySeriesV2 where
  key : String
  label : String
  samples : List Sample
  deriving DecidableEq, Repr

/-- Inner loop of one CSV data row, shared by both variants: the timestamp
cell comes from the first series owning a sample at this index (rendered with
the Date.toISOString model toIso), one value cell per series with the sample
value rendered by the String() model numToStr and escaped, and a blank cell
for a series lacking a sample at this index. -/
def csvRowCells (toIso : Int → String) (numToStr : ℚ → String) (index : Nat) :
    List (List Sample) → String → List String → String × List String
  | [], timestamp, values => (timestamp, values)
  | samples :: rest, timestamp, values =>
      match samples.get? index with
      | some sample =>
          let timestamp' := if timestamp = "" then toIso sample.t else timestamp
          csvRowCells toIso numToStr index rest timestamp'
            (values ++ [escapeCell (numToStr sample.v)])
      | none => csvRowCells toIso numToStr index rest timestamp (values ++ [""])

/-- Embedding of buildHistoryCsv, first variant: header cell ts, then one row
per sample index up to the longest series.  Date.prototype.toISOString and
number-to-string conversion are JS built-ins outside the repository, passed
in as toIso and numToStr. -/
def buildHistoryCsvV1 (toIso : Int → String) (numToStr : ℚ → String)
    (series : List HistorySeriesV1) : String :=
  let headers := "ts" :: series.map fun item => escapeCell item.label
  let maxLength := (series.map fun item => item.history.length).foldl max 0
  let rows := String.intercalate "," headers ::
    (List.range maxLength).map fun index =>
      let rc := csvRowCells toIso numToStr index (series.map fun item => item.history) "" []
      String.intercalate "," (rc.1 :: rc.2)
  String.intercalate "\n" rows

/-- Embedding of buildHistoryCsv, second variant: identical except for the
header cell timestamp and the field name samples. -/
def buildHistoryCsvV2 (toIso : Int → String) (numToStr : ℚ → String)
    (series : List HistorySeriesV2) : String :=
  let headers := "timestamp" :: series.map fun item => escapeCell item.label
  let maxLength := (series.map fun item => item.samples.length).foldl max 0
  let rows := String.intercalate "," headers ::
    (List.range maxLength).map fun index =>
      let rc := csvRowCells toIso numToStr index (series.map fun item => item.samples) "" []
      String.intercalate "," (rc.1 :: rc.2)
  String.intercalate "\n" rows

/-- Concrete stand-in for Date.toISOString in the C5 evaluation. -/
def csvIso : Int → String := fun t => "iso-" ++ toString t

/-- Concrete stand-in for String(value) on the integer-valued samples of the
C5 evaluation. -/
def csvNum : ℚ → String := fun q => toString q.num

/-- First series of the C5 evaluation: two samples. -/
def csvSeriesA : HistorySeriesV2 :=
  { key := "sensor-a", label := "Sensor A",
    samples := [{ t := 0, v := 1 }, { t := 1000, v := 2 }] }

/-- Second series of the C5 evaluation: one sample, so the second row gets a
blank cell. -/
def csvSeriesB : HistorySeriesV2 :=
  { key := "sensor-b", label := "Sensor B", samples := [{ t := 0, v := 10 }] }

/-- Series whose label needs CSV quoting in the C5 evaluation. -/
def csvSeriesQuoted : HistorySeriesV2 :=
  { key := "sensor-c", label := "a,\"b\"", samples := [] }

/-- C5: at the failing input (the empty series list) the first variant emits
the header ts, not timestamp as the claim and the repository's CSV test
require; the second variant emits timestamp, and on misaligned series it
produces one row per sample index with blank fill and quote-doubling label
escaping exactly as claimed. -/
theorem buildHistoryCsv_header :
    buildHistoryCsvV1 csvIso csvNum [] = "ts"
    ∧ buildHistoryCsvV2 csvIso csvNum [] = "timestamp"
    ∧ buildHistoryCsvV2 csvIso csvNum [csvSeriesA, csvSeriesB]
        = "timestamp,Sensor A,Sensor B\niso-0,1,10\niso-1000,2,"
    ∧ escapeCell csvSeriesQuoted.label = "\"a,\"\"b\"\"\""
    ∧ buildHistoryCsvV2 csvIso csvNum [csvSeriesQuoted]
        = "timestamp,\"a,\"\"b\"\"\"" := by
  refine ⟨by decide, by decide, by decide, by decide, by decide⟩

end CockpitSensors
